import Mathlib

/-!
Verification development for the Tx Simulator app (src/app.py).

The app is a single-file UI over an external simulation API.  We shallow-embed
the pieces of logic the specification talks about:

  - `decode_abi_if_provided` : the ABI decoder wrapper (app.py lines 56-71);
  - `simulate_tx` and the simulate button handler (app.py lines 37-44 and
    97-150), with the HTTP transport of the requests library modelled as an
    explicit outcome value;
  - the risk classifier block (app.py lines 138-142);
  - the NFT preview loop (app.py lines 122-135);
  - the response cache of the simulate call.

Python dynamic values coming from JSON are modelled by the inductive `PyVal`;
dictionaries are association lists looked up by first key occurrence.
-/

namespace TxSim

/-- A Python/JSON value, as produced by json parsing and passed around the app. -/
inductive PyVal where
  | null : PyVal
  | bool (b : Bool) : PyVal
  | int (n : Int) : PyVal
  | str (s : String) : PyVal
  | list (xs : List PyVal) : PyVal
  | dict (fields : List (String × PyVal)) : PyVal

/-- Dictionary lookup: the value of the first binding of key `k`, if any.
Models `k in d` (presence) and `d[k]` / `d.get(k, default)` on a Python dict. -/
def lookupField (r : List (String × PyVal)) (k : String) : Option PyVal :=
  (r.find? (fun p => p.fst = k)).map Prod.snd

/-! ## ABI decoder (app.py lines 56-71)

`decode_abi_if_provided(raw_tx, abi_json)` returns `raw_tx` unchanged when the
ABI text is empty; otherwise it runs `json.loads` plus the web3 library call
`contract.decode_function_input(raw_tx)` inside one `try`.  The external
library work is modelled by an oracle `webDecode abi raw` that either succeeds
with the function name and the parameter dict, or fails with an exception
message (this covers malformed ABI JSON, no matching selector, call data
shorter than 4 bytes, malformed call data, unsupported types: all of these
raise inside the `try` block).  On success the function returns the dict
with keys "function" and "params"; on failure it emits a warning diagnostic
(`st.warning`) and returns the raw input.  The second component of the result
collects the warning diagnostics emitted. -/
def decode_abi_if_provided (webDecode : String → String → Except String (String × PyVal))
    (raw_tx : String) (abi_json : String) : PyVal × List String :=
  if abi_json = "" then
    (PyVal.str raw_tx, [])
  else
    match webDecode abi_json raw_tx with
    | Except.ok (fn, params) =>
        (PyVal.dict [("function", PyVal.str fn), ("params", params)], [])
    | Except.error e =>
        (PyVal.str raw_tx, [String.append "ABI decoding failed: " e])

/-! ## Risk classifier (app.py lines 138-142) -/

/-- The high gas warning string (app.py line 140). -/
def highGasWarning : String := "⚠️ High gas usage (>500k)"

/-- The approvals warning string (app.py line 142). -/
def approvalsWarning : String := "🔓 New token approvals detected"

/-- The integer value that `result.get("gas_used", 0)` contributes to the
comparison `> 500000`: `0` when the field is absent, the integer when it is an
integer (a Python bool is an int: True is 1, False is 0), and `Option.none`
when the comparison would raise TypeError (a non-numeric value). -/
def gasValue (result : List (String × PyVal)) : Option Int :=
  match lookupField result "gas_used" with
  | Option.none => some 0
  | some (PyVal.int n) => some n
  | some (PyVal.bool b) => some (if b then 1 else 0)
  | some _ => Option.none

/-- The risk list built at app.py lines 138-142: the high gas warning when
`result.get("gas_used", 0) > 500000`, then the approvals warning when
`"approvals" in result`.  `Except.error ()` models the TypeError that the
comparison raises on a non-numeric `gas_used` value (it would propagate to
the top-level handler). -/
def risks (result : List (String × PyVal)) : Except Unit (List String) :=
  match gasValue result with
  | Option.none => Except.error ()
  | some g =>
      Except.ok ((if 500000 < g then [highGasWarning] else []) ++
                 (if (lookupField result "approvals").isSome then [approvalsWarning] else []))

/-! ## Simulation client and button handler (app.py lines 37-44, 97-150)

`simulate_tx` performs `requests.post(...).json()`.  The transport layer is
external; we model one call outcome explicitly:

  - `transportError`: `requests.post` raises (connectivity failure, timeout);
  - `response status body`: an HTTP response arrived with the given status
    code; `body` is the parsed JSON object when the body is valid JSON (the
    simulation endpoint returns JSON objects, modelled as dicts), and
    `Option.none` when the body is not valid JSON, in which case `.json()`
    raises json.JSONDecodeError.

Note that the code never inspects the status code (there is no
`raise_for_status` call): `.json()` parses the body whatever the status is. -/
inductive HttpOutcome where
  | transportError (msg : String) : HttpOutcome
  | response (status : Nat) (body : Option (List (String × PyVal))) : HttpOutcome

/-- The message of the exception raised by `.json()` on a non-JSON body. -/
def jsonDecodeErrorMsg : String := "Expecting value: line 1 column 1 (char 0)"

/-- `simulate_tx` (app.py lines 37-44) without the cache layer: the result of
`requests.post(DUNE_API_URL, ...).json()` for one actual network exchange.
`Except.error` models an exception propagating to the caller. -/
def simulate_tx (net : HttpOutcome) : Except String (List (String × PyVal)) :=
  match net with
  | HttpOutcome.transportError m => Except.error m
  | HttpOutcome.response _ Option.none => Except.error jsonDecodeErrorMsg
  | HttpOutcome.response _ (some j) => Except.ok j

/-- What the simulate button handler (app.py lines 97-150) reports back:

  - `inputError`: `st.error("Transaction data must start with 0x")`, shown
    before any network activity when the prefix check fails (line 98-99);
  - `apiError`: the top-level `except` branch, `st.error("API Error: ...")`
    (line 149-150), carrying the exception message;
  - `simError`: the in-band branch `if "error" in result` (line 108-109),
    carrying the value of the `error` field as data;
  - `rendered`: the normal rendering branch, carrying the result body and the
    computed risk warnings. -/
inductive HandlerOutcome where
  | inputError (msg : String) : HandlerOutcome
  | apiError (msg : String) : HandlerOutcome
  | simError (e : PyVal) : HandlerOutcome
  | rendered (result : List (String × PyVal)) (riskList : List String) : HandlerOutcome

/-- Whether an outcome is a reported failure (an `st.error` that is not the
in-band simulation error display): the input validation error or the
top-level API error. -/
def HandlerOutcome.isFailureReport : HandlerOutcome → Bool
  | HandlerOutcome.inputError _ => true
  | HandlerOutcome.apiError _ => true
  | _ => false

/-- The prefix check `raw_tx.startswith("0x")` of app.py line 98: whether the
first two characters of the string are 0 and x. -/
def startsWith0x (s : String) : Bool :=
  match s.data with
  | '0' :: 'x' :: _ => true
  | _ => false

/-- The simulate button handler body (app.py lines 97-150) for one click, with
the network exchange it would perform supplied as `net`.  It checks the 0x
prefix first; then calls `simulate_tx` inside `try`; an exception there or in
the rendering (the risk block raising TypeError on a non-numeric gas value)
lands in the `except` branch; `"error" in result` routes to the in-band error
display; otherwise the result is rendered together with its risk list. -/
def simulateButtonHandler (raw_tx : String) (net : HttpOutcome) : HandlerOutcome :=
  if startsWith0x raw_tx = false then
    HandlerOutcome.inputError "Transaction data must start with 0x"
  else
    match simulate_tx net with
    | Except.error e => HandlerOutcome.apiError e
    | Except.ok result =>
      match lookupField result "error" with
      | some e => HandlerOutcome.simError e
      | Option.none =>
        match risks result with
        | Except.error _ => HandlerOutcome.apiError "TypeError"
        | Except.ok rs => HandlerOutcome.rendered result rs

/-! ## NFT preview loop (app.py lines 122-135)

The loop `for i, transfer in enumerate(nft_transfers[:3])` calls
`get_nft_image(api_key, transfer["contract_address"], transfer["token_id"])`
for each entry of the slice `nft_transfers[:3]`. -/

/-- One entry of the `nft_transfers` list, with the two fields the loop reads. -/
structure NftTransfer where
  contract_address : PyVal
  token_id : PyVal

/-- The arguments passed to `get_nft_image`, in order, over one rendering of
the NFT previews section: one call per entry of `nft_transfers[:3]`. -/
def nftFetchCalls (nft_transfers : List NftTransfer) : List (PyVal × PyVal) :=
  (nft_transfers.take 3).map (fun t => (t.contract_address, t.token_id))

/-! ## Response cache of the simulate call (app.py line 37)

`simulate_tx` is decorated with a response cache with a 300 second time to
live, keyed by the argument tuple.  The caching machinery itself is library
code, not part of this repository, so it is modelled from the specification. -/

/-- The cache key of `simulate_tx`: its argument tuple (apiKey, callData, chainId). -/
structure SimKey where
  apiKey : String
  callData : String
  chainId : Int
deriving DecidableEq

/-- The freshness window of the simulate cache, in seconds (ttl=300). -/
def CACHE_TTL : Int := 300

/-- A cache state: entries of key, store time and stored value, newest first. -/
def SimCache : Type := List (SimKey × Int × PyVal)

/-- Modelled from the spec: the lookup step of the response cache attached to
`simulate_tx` (the decorator on app.py line 37; the caching machinery is
library code not in the repository).  An entry is fresh when it was stored
less than `CACHE_TTL` seconds ago. -/
def cacheFind (c : SimCache) (k : SimKey) (now : Int) : Option PyVal :=
  match c.find? (fun e => e.fst = k) with
  | some (_, t, v) => if now - t < CACHE_TTL then some v else Option.none
  | Option.none => Option.none

/-- Modelled from the spec: one call of the cached `simulate_tx` at time `now`.
`fetch now` is the value the remote endpoint would return at that time.  On a
fresh cache hit the stored value is returned and no request is issued; on a
miss (absent or expired entry) the endpoint is invoked and the result stored.
The Bool records whether the remote endpoint was invoked. -/
def simulateCached (fetch : Int → PyVal) (c : SimCache) (now : Int) (k : SimKey) :
    PyVal × SimCache × Bool :=
  match cacheFind c k now with
  | some v => (v, c, false)
  | Option.none => (fetch now, (k, now, fetch now) :: c, true)

/-- Modelled from the spec: a sequence of calls of the cached `simulate_tx`,
given as (time, key) pairs.  Returns the final cache, the list of returned
values, and how many calls invoked the remote endpoint. -/
def runCalls (fetch : Int → PyVal) : SimCache → List (Int × SimKey) → SimCache × List PyVal × Nat
  | c, [] => (c, [], 0)
  | c, (t, k) :: rest =>
      match simulateCached fetch c t k with
      | (v, c2, fetched) =>
        match runCalls fetch c2 rest with
        | (c3, vs, n) => (c3, v :: vs, (if fetched then 1 else 0) + n)

/-! ## Theorems -/

/-- An oracle for the external ABI decode work that fails, as the web3 library
does on call data shorter than 4 bytes (no selector can be extracted, the
lookup raises inside the `try` block). -/
def shortDataOracle : String → String → Except String (String × PyVal) :=
  fun _ _ => Except.error "insufficient data bytes"

/-- C5: with an empty ABI input, `decode_abi_if_provided` returns the original
call data unchanged, emits no diagnostic, and never consults the decoding
machinery (the result is the same for every decode oracle). -/
theorem decode_empty_abi_passthrough
    (f g : String → String → Except String (String × PyVal)) (raw : String) :
    decode_abi_if_provided f raw "" = (PyVal.str raw, []) ∧
    decode_abi_if_provided f raw "" = decode_abi_if_provided g raw "" :=
  ⟨rfl, rfl⟩

/-- C1: with a non-empty ABI input, `decode_abi_if_provided` never raises: when
the external decode work fails with any exception (malformed ABI JSON, no
matching selector, call data shorter than 4 bytes, unsupported type), it
returns the raw call data unchanged together with one warning diagnostic; when
it succeeds it returns the decoded dict with no diagnostic.  These two cases
are exhaustive, so the caller always receives a value. -/
theorem decode_never_raises
    (f : String → String → Except String (String × PyVal)) (raw abi : String)
    (h : abi ≠ "") :
    (∀ e, f abi raw = Except.error e →
        decode_abi_if_provided f raw abi =
          (PyVal.str raw, [String.append "ABI decoding failed: " e])) ∧
    (∀ fn ps, f abi raw = Except.ok (fn, ps) →
        decode_abi_if_provided f raw abi =
          (PyVal.dict [("function", PyVal.str fn), ("params", ps)], [])) := by
  constructor
  · intro e he
    unfold decode_abi_if_provided
    rw [if_neg h, he]
  · intro fn ps hok
    unfold decode_abi_if_provided
    rw [if_neg h, hok]

/-- C1 witness: call data "0xab" (shorter than 4 bytes once the 0x prefix is
stripped) with ABI "[]" makes the library raise; the wrapper returns the raw
input and the warning diagnostic. -/
theorem decode_never_raises_witness :
    ("[]" : String) ≠ "" ∧
    decode_abi_if_provided shortDataOracle "0xab" "[]" =
      (PyVal.str "0xab",
       [String.append "ABI decoding failed: " "insufficient data bytes"]) :=
  ⟨by decide, (decode_never_raises shortDataOracle "0xab" "[]" (by decide)).left
    "insufficient data bytes" rfl⟩

/-- C9: the result of `decode_abi_if_provided` is always either the original
input string unchanged or a dict with exactly the keys "function" and
"params", and the two cases can never coincide (a dict is never equal to a
string), so the caller can always tell which case occurred. -/
theorem decode_result_shape
    (f : String → String → Except String (String × PyVal)) (raw abi : String) :
    ((decode_abi_if_provided f raw abi).fst = PyVal.str raw ∨
      ∃ fn ps, (decode_abi_if_provided f raw abi).fst =
        PyVal.dict [("function", PyVal.str fn), ("params", ps)]) ∧
    (∀ fn ps,
      PyVal.dict [("function", PyVal.str fn), ("params", ps)] ≠ PyVal.str raw) := by
  constructor
  · unfold decode_abi_if_provided
    by_cases h : abi = ""
    · rw [if_pos h]
      left
      rfl
    · rw [if_neg h]
      cases hf : f abi raw with
      | ok p =>
        obtain ⟨fn, ps⟩ := p
        right
        exact ⟨fn, ps, rfl⟩
      | error e =>
        left
        rfl
  · intro fn ps hcontra
    exact PyVal.noConfusion hcontra

/-- C9 witness: the shape theorem at a concrete failing decode. -/
theorem decode_result_shape_witness :
    ((decode_abi_if_provided shortDataOracle "0xaa" "x").fst = PyVal.str "0xaa" ∨
      ∃ fn ps, (decode_abi_if_provided shortDataOracle "0xaa" "x").fst =
        PyVal.dict [("function", PyVal.str fn), ("params", ps)]) ∧
    (∀ fn ps,
      PyVal.dict [("function", PyVal.str fn), ("params", ps)] ≠ PyVal.str "0xaa") :=
  decode_result_shape shortDataOracle "0xaa" "x"

/-- C3: on a result whose gas_used field is the integer g, the classifier
succeeds and its list contains the high gas warning exactly when
g > 500000. -/
theorem risks_high_gas_iff (result : List (String × PyVal)) (g : Int)
    (h : lookupField result "gas_used" = some (PyVal.int g)) :
    ∃ rs, risks result = Except.ok rs ∧ (highGasWarning ∈ rs ↔ 500000 < g) := by
  have hgas : gasValue result = some g := by
    unfold gasValue
    rw [h]
  refine ⟨_, by unfold risks; rw [hgas], ?_⟩
  by_cases h5 : 500000 < g <;>
    by_cases ha : (lookupField result "approvals").isSome <;>
      simp [h5, ha, highGasWarning, approvalsWarning]

/-- C3 witness: gas_used = 500001 triggers the warning, gas_used = 500000
does not (both instances of the boundary theorem). -/
theorem risks_high_gas_iff_witness :
    (∃ rs, risks [("gas_used", PyVal.int 500001)] = Except.ok rs ∧
      (highGasWarning ∈ rs ↔ 500000 < (500001 : Int))) ∧
    (∃ rs, risks [("gas_used", PyVal.int 500000)] = Except.ok rs ∧
      (highGasWarning ∈ rs ↔ 500000 < (500000 : Int))) :=
  ⟨risks_high_gas_iff _ 500001 rfl, risks_high_gas_iff _ 500000 rfl⟩

/-- C4: whenever the classifier succeeds, its list contains the approvals
warning exactly when the result has an approvals field, whatever that field
holds (presence-only check). -/
theorem risks_approvals_iff (result : List (String × PyVal)) (rs : List String)
    (h : risks result = Except.ok rs) :
    approvalsWarning ∈ rs ↔ (lookupField result "approvals").isSome := by
  unfold risks at h
  cases hg : gasValue result with
  | none =>
    rw [hg] at h
    cases h
  | some g =>
    rw [hg] at h
    cases h
    by_cases h5 : 500000 < g <;>
      by_cases ha : (lookupField result "approvals").isSome <;>
        simp [h5, ha, highGasWarning, approvalsWarning]

/-- C4 witness: a result whose approvals field is the empty object still
emits the approvals warning. -/
theorem risks_approvals_iff_witness :
    approvalsWarning ∈ ([approvalsWarning] : List String) ↔
      (lookupField [("approvals", PyVal.dict [])] "approvals").isSome :=
  risks_approvals_iff [("approvals", PyVal.dict [])] [approvalsWarning] rfl

/-- C10: on a result with no gas_used field, the classifier treats the gas
usage as 0: it succeeds and its list never contains the high gas warning. -/
theorem risks_missing_gas_no_warning (result : List (String × PyVal))
    (h : lookupField result "gas_used" = Option.none) :
    ∃ rs, risks result = Except.ok rs ∧ highGasWarning ∉ rs := by
  have hgas : gasValue result = some 0 := by
    unfold gasValue
    rw [h]
  refine ⟨_, by unfold risks; rw [hgas], ?_⟩
  by_cases ha : (lookupField result "approvals").isSome <;>
    simp [ha, highGasWarning, approvalsWarning]

/-- C10 witness: a result with approvals but no gas_used field gets no high
gas warning. -/
theorem risks_missing_gas_no_warning_witness :
    ∃ rs, risks [("approvals", PyVal.dict []), ("success", PyVal.bool true)] =
      Except.ok rs ∧ highGasWarning ∉ rs :=
  risks_missing_gas_no_warning [("approvals", PyVal.dict []), ("success", PyVal.bool true)] rfl

/-- C6: when the submitted call data does not start with 0x, the handler
reports the input validation error, and its outcome does not depend on the
network at all (no request is made: every network behaviour yields the same
outcome). -/
theorem handler_prefix_validation (raw : String)
    (h : startsWith0x raw = false) :
    (∀ net, simulateButtonHandler raw net =
        HandlerOutcome.inputError "Transaction data must start with 0x") ∧
    (∀ net net2, simulateButtonHandler raw net = simulateButtonHandler raw net2) := by
  have hall : ∀ net, simulateButtonHandler raw net =
      HandlerOutcome.inputError "Transaction data must start with 0x" := by
    intro net
    unfold simulateButtonHandler
    rw [if_pos h]
  exact ⟨hall, fun net net2 => (hall net).trans (hall net2).symm⟩

/-- C6 witness: call data "abc" is rejected before any network exchange. -/
theorem handler_prefix_validation_witness :
    simulateButtonHandler "abc" (HttpOutcome.transportError "boom") =
      HandlerOutcome.inputError "Transaction data must start with 0x" :=
  (handler_prefix_validation "abc" (by decide)).left (HttpOutcome.transportError "boom")

/-- C2 counterexample: a non-2xx HTTP status is not reported as a failure.  On
an HTTP 500 response whose body is valid JSON without an error field, the
handler renders the body as a normal result instead of reporting a failure:
the status code is never inspected. -/
theorem simulate_status_counterexample :
    (simulateButtonHandler "0xdead"
        (HttpOutcome.response 500 (some [("success", PyVal.bool true)]))).isFailureReport
      = false := by
  rfl

/-- C2 (amended): for valid call data, an in-band error field is surfaced as
data (the simError display, not a failure report); a transport failure and a
non-JSON body are failures reported through the distinct apiError path; and
the HTTP status code never influences the outcome: a response body is handled
identically under any two status codes. -/
theorem simulate_error_taxonomy (raw : String) (body : List (String × PyVal))
    (status status2 : Nat) (e : PyVal) (m : String)
    (hraw : startsWith0x raw = true) :
    (lookupField body "error" = some e →
        simulateButtonHandler raw (HttpOutcome.response status (some body)) =
          HandlerOutcome.simError e ∧
        (HandlerOutcome.simError e).isFailureReport = false) ∧
    (simulateButtonHandler raw (HttpOutcome.transportError m) =
        HandlerOutcome.apiError m ∧
      (HandlerOutcome.apiError m).isFailureReport = true) ∧
    (simulateButtonHandler raw (HttpOutcome.response status Option.none) =
        HandlerOutcome.apiError jsonDecodeErrorMsg) ∧
    (simulateButtonHandler raw (HttpOutcome.response status (some body)) =
        simulateButtonHandler raw (HttpOutcome.response status2 (some body))) := by
  have hcond : ¬ (startsWith0x raw = false) := by
    rw [hraw]
    decide
  refine ⟨?_, ⟨?_, rfl⟩, ?_, ?_⟩
  · intro herr
    constructor
    · unfold simulateButtonHandler
      rw [if_neg hcond]
      simp only [simulate_tx, herr]
    · rfl
  · unfold simulateButtonHandler
    rw [if_neg hcond]
    simp only [simulate_tx]
  · unfold simulateButtonHandler
    rw [if_neg hcond]
    simp only [simulate_tx]
  · unfold simulateButtonHandler
    rw [if_neg hcond, if_neg hcond]
    simp only [simulate_tx]

/-- C2 witness: the amended taxonomy at concrete inputs — an in-band error
body under status 500 is surfaced as data, a timeout is an API failure, and a
non-JSON body is an API failure. -/
theorem simulate_error_taxonomy_witness :
    simulateButtonHandler "0xab"
        (HttpOutcome.response 500 (some [("error", PyVal.str "revert")])) =
      HandlerOutcome.simError (PyVal.str "revert") ∧
    simulateButtonHandler "0xab" (HttpOutcome.transportError "timeout") =
      HandlerOutcome.apiError "timeout" ∧
    simulateButtonHandler "0xab" (HttpOutcome.response 500 Option.none) =
      HandlerOutcome.apiError jsonDecodeErrorMsg := by
  have h := simulate_error_taxonomy "0xab" [("error", PyVal.str "revert")] 500 200
    (PyVal.str "revert") "timeout" (by decide)
  exact ⟨(h.left rfl).left, h.right.left.left, h.right.right.left⟩

/-- Helper for the cache claim: with a fresh entry for `k` stored at `t0` in
the cache, every later call on `k` within the freshness window is a hit: no
remote invocation happens, the stored value is returned, and the cache does
not change. -/
theorem runCalls_all_hits (fetch : Int → PyVal) (k : SimKey) (t0 : Int) (v : PyVal)
    (ts : List Int) (h : ∀ t ∈ ts, t0 ≤ t ∧ t - t0 < CACHE_TTL) :
    runCalls fetch [(k, t0, v)] (ts.map (fun t => (t, k))) =
      ([(k, t0, v)], ts.map (fun _ => v), 0) := by
  induction ts with
  | nil => rfl
  | cons t ts ih =>
    have ht := h t (List.mem_cons_self t ts)
    have hfind : cacheFind [(k, t0, v)] k t = some v := by
      unfold cacheFind
      rw [List.find?_cons_of_pos _ (by simp)]
      simp [ht.right]
    simp only [List.map_cons, runCalls, simulateCached, hfind]
    rw [ih (fun t2 ht2 => h t2 (List.mem_cons_of_mem t ht2))]
    simp

/-- C7: starting from an empty cache, a call on key `k` at time `t0` followed
by any number of calls on the same key at times within the 300-second window
invokes the remote endpoint exactly once and returns the first-obtained value
to every call; whereas a second call at a time at least 300 seconds later
invokes the endpoint again (two invocations in total). -/
theorem simulate_cache_window (fetch : Int → PyVal) (k : SimKey) (t0 t1 : Int)
    (ts : List Int)
    (hin : ∀ t ∈ ts, t0 ≤ t ∧ t - t0 < CACHE_TTL)
    (hout : CACHE_TTL ≤ t1 - t0) :
    (runCalls fetch [] ((t0, k) :: ts.map (fun t => (t, k)))).snd =
      (fetch t0 :: ts.map (fun _ => fetch t0), 1) ∧
    (runCalls fetch [] [(t0, k), (t1, k)]).snd.snd = 2 := by
  have hmiss0 : cacheFind [] k t0 = Option.none := rfl
  constructor
  · simp only [runCalls, simulateCached, hmiss0]
    rw [runCalls_all_hits fetch k t0 (fetch t0) ts hin]
    simp
  · have hexp : ¬ (t1 - t0 < CACHE_TTL) := not_lt.mpr hout
    have hmiss1 : cacheFind [(k, t0, fetch t0)] k t1 = Option.none := by
      unfold cacheFind
      rw [List.find?_cons_of_pos _ (by simp)]
      simp [hexp]
    simp only [runCalls, simulateCached, hmiss0, hmiss1]
    simp

/-- C7 witness: with calls at times 0, 10 and 250 on one key the endpoint is
invoked once and all three calls return the time-0 value; a call at time 400
after the time-0 call invokes it a second time. -/
theorem simulate_cache_window_witness :
    (runCalls (fun t => PyVal.int t) []
        ((0, SimKey.mk "key" "0xdata" 1) ::
          ([10, 250] : List Int).map (fun t => (t, SimKey.mk "key" "0xdata" 1)))).snd =
      (PyVal.int 0 :: ([10, 250] : List Int).map (fun _ => PyVal.int 0), 1) ∧
    (runCalls (fun t => PyVal.int t) []
        [(0, SimKey.mk "key" "0xdata" 1), (400, SimKey.mk "key" "0xdata" 1)]).snd.snd = 2 :=
  simulate_cache_window (fun t => PyVal.int t) (SimKey.mk "key" "0xdata" 1) 0 400
    [10, 250] (by decide) (by decide)

/-- C8: the NFT preview loop passes to the image fetcher exactly the entries
of the first-3 slice of the transfer list: the calls made are the same as for
the truncated list (entries beyond the third can never influence a fetch),
their number is min(length, 3), and there are never more than 3 of them. -/
theorem nft_fetch_cap (nft_transfers : List NftTransfer) :
    nftFetchCalls nft_transfers = nftFetchCalls (nft_transfers.take 3) ∧
    (nftFetchCalls nft_transfers).length = min nft_transfers.length 3 ∧
    (nftFetchCalls nft_transfers).length ≤ 3 := by
  refine ⟨?_, ?_, ?_⟩
  · simp [nftFetchCalls, List.take_take]
  · simp only [nftFetchCalls, List.length_map, List.length_take]
    omega
  · simp only [nftFetchCalls, List.length_map, List.length_take]
    omega

end TxSim
